import Mathlib

/-!
Shallow embedding of the InvoiceGuard core: the invoice-to-purchase-order
validation engine (`utils/validation.py`), the payment state tracker
(`utils/invoice_helpers.py`), the payment log accumulator and the batch
extraction loop (`main.py`).

Modelling conventions:
- A pandas DataFrame is a `List` of structure rows, in row order.
- Numeric cells are `ℚ` (exact, mirroring the exact `==`/`<` comparisons of
  the Python code; the code uses no tolerance).
- A calendar date (the value `pd.to_datetime(...)` produces, compared at
  day granularity via `%Y-%m-%d` strings) is an `Int` day number.
- PO-side cells that can be missing (`NaN`) after the left join are
  `Option ℚ`; `pd.isna` is `Option.isNone`; Python comparisons on `NaN`
  (`!=` true, `<`/`>` false) are the `py_ne`/`py_gt`/`py_lt` helpers.
- External collaborators (the payment HTTP endpoint, the generative
  justification call, the PDF text extractor and invoice parser) are
  function parameters; a Python exception is `Except.error`.
-/

/-- A calendar date at day granularity, as produced by
`pd.to_datetime(due_date, format="%b %d %Y")` and compared through its
`%Y-%m-%d` rendering (string order coincides with date order). -/
abbrev Date := Int

/-- Python `astype(int)` on a numeric cell: truncation toward zero. -/
def astype_int (v : ℚ) : ℤ :=
  if 0 ≤ v then ⌊v⌋ else ⌈v⌉

/-- One row of the invoices DataFrame as produced by `analyze_invoices`
(one row per invoice line item), before `validate_invoices` mutates it. -/
structure InvoiceRow where
  file_name : String
  invoice_number : ℚ
  order_id : String
  customer_name : String
  due_date : Date
  ship_to : String
  discount : ℚ
  shipping_cost : ℚ
  total : ℚ
  item_name : String
  quantity : ℚ
  rate : ℚ
  amount : ℚ
  deriving DecidableEq, Repr

/-- One row of the purchase-order DataFrame. The three comparison columns
may be missing (`NaN`) in the CSV, hence `Option ℚ`. -/
structure PoRow where
  invoice_number : ℚ
  order_id : String
  customer_name : String
  quantity : Option ℚ
  rate : Option ℚ
  expected_amount : Option ℚ
  deriving DecidableEq, Repr

/-- The invoices DataFrame after the in-place mutation at the top of
`validate_invoices`: `invoice_number` coerced with `astype(int)` and
renamed to `invoice_number_inv`; every other column untouched. -/
structure InvoiceRowC where
  file_name : String
  invoice_number_inv : ℤ
  order_id : String
  customer_name : String
  due_date : Date
  ship_to : String
  discount : ℚ
  shipping_cost : ℚ
  total : ℚ
  item_name : String
  quantity : ℚ
  rate : ℚ
  amount : ℚ
  deriving DecidableEq, Repr

/-- The purchase-order DataFrame after `po_df["invoice_number"].astype(int)`:
only `invoice_number` is changed. -/
structure PoRowC where
  invoice_number : ℤ
  order_id : String
  customer_name : String
  quantity : Option ℚ
  rate : Option ℚ
  expected_amount : Option ℚ
  deriving DecidableEq, Repr

/-- The in-place coercion and rename applied to one invoice row
(lines 28 and 31 of `validation.py`). -/
def coerce_invoice_row (r : InvoiceRow) : InvoiceRowC :=
  { file_name := r.file_name
    invoice_number_inv := astype_int r.invoice_number
    order_id := r.order_id
    customer_name := r.customer_name
    due_date := r.due_date
    ship_to := r.ship_to
    discount := r.discount
    shipping_cost := r.shipping_cost
    total := r.total
    item_name := r.item_name
    quantity := r.quantity
    rate := r.rate
    amount := r.amount }

/-- The in-place coercion applied to one purchase-order row
(line 29 of `validation.py`). -/
def coerce_po_row (p : PoRow) : PoRowC :=
  { invoice_number := astype_int p.invoice_number
    order_id := p.order_id
    customer_name := p.customer_name
    quantity := p.quantity
    rate := p.rate
    expected_amount := p.expected_amount }

/-- Left-side merge key `["invoice_number_inv", "order_id", "customer_name"]`. -/
def inv_merge_key (r : InvoiceRowC) : ℤ × String × String :=
  (r.invoice_number_inv, r.order_id, r.customer_name)

/-- Right-side merge key `["invoice_number", "order_id", "customer_name"]`. -/
def po_merge_key (p : PoRowC) : ℤ × String × String :=
  (p.invoice_number, p.order_id, p.customer_name)

/-- One row of the merged DataFrame: the invoice row plus the matching
purchase-order row, if any (left outer join). -/
structure MergedRow where
  inv : InvoiceRowC
  po : Option PoRowC
  deriving DecidableEq, Repr

/-- The `quantity_po` column of a merged row (`NaN` when no PO matched or
the matched PO's cell was empty). -/
def MergedRow.quantity_po (m : MergedRow) : Option ℚ :=
  m.po.bind PoRowC.quantity

/-- The `rate_po` column of a merged row. -/
def MergedRow.rate_po (m : MergedRow) : Option ℚ :=
  m.po.bind PoRowC.rate

/-- The `expected_amount` column of a merged row. -/
def MergedRow.expected_amount (m : MergedRow) : Option ℚ :=
  m.po.bind PoRowC.expected_amount

/-- The merge `pd.merge(..., how="left", ...)` once the `one_to_one` validation has
passed: each invoice row in order, paired with the unique matching PO row
if one exists. -/
def merge_left (invs : List InvoiceRowC) (pos : List PoRowC) : List MergedRow :=
  invs.map (fun i => ⟨i, pos.find? (fun p => po_merge_key p = inv_merge_key i)⟩)

/-- Python `row["quantity_inv"] != row["quantity_po"]` where the right side
may be `NaN`: a comparison against `NaN` is unequal. -/
def py_ne (a : ℚ) (b : Option ℚ) : Bool :=
  match b with
  | some y => a ≠ y
  | none => true

/-- Python `row["amount"] > row["expected_amount"]` where the right side may
be `NaN`: an order comparison against `NaN` is false. -/
def py_gt (a : ℚ) (b : Option ℚ) : Bool :=
  match b with
  | some y => y < a
  | none => false

/-- Python `row["amount"] < row["expected_amount"]` with `NaN` semantics. -/
def py_lt (a : ℚ) (b : Option ℚ) : Bool :=
  match b with
  | some y => a < y
  | none => false

/-- Embedding of `_check_missing_po`: any of the three PO-side cells is `NaN`. -/
def _check_missing_po (m : MergedRow) : Bool :=
  m.quantity_po.isNone || m.rate_po.isNone || m.expected_amount.isNone

/-- Embedding of `_get_validation_reasons`: the ordered reason list built by the four
checks (quantity, rate, then the mutually exclusive over/under amount). -/
def _get_validation_reasons (m : MergedRow) : List String :=
  let reasons : List String := []
  let reasons := if py_ne m.inv.quantity m.quantity_po
    then reasons ++ ["Quantity Mismatch"] else reasons
  let reasons := if py_ne m.inv.rate m.rate_po
    then reasons ++ ["Rate Mismatch"] else reasons
  let reasons := if py_gt m.inv.amount m.expected_amount
    then reasons ++ ["Overbilling"]
    else if py_lt m.inv.amount m.expected_amount
      then reasons ++ ["Amount Mismatch"] else reasons
  reasons

/-- The per-row classification in the body of the `validate_invoices` loop:
reasons (short-circuiting on a missing PO), then the
`validation_result` string and `validation_status`. -/
def classify_row (m : MergedRow) : String × String :=
  let reasons := if _check_missing_po m then ["Missing PO"]
    else _get_validation_reasons m
  if reasons.isEmpty then ("Match", "VALID")
  else (String.intercalate ", " reasons, "INVALID")

/-- One row of the validation report (`report_columns` selection). -/
structure ReportRow where
  file_name : String
  invoice_number_inv : ℤ
  order_id : String
  customer_name : String
  due_date : Date
  ship_to : String
  discount : ℚ
  shipping_cost : ℚ
  total : ℚ
  quantity_inv : ℚ
  quantity_po : Option ℚ
  rate_inv : ℚ
  rate_po : Option ℚ
  amount : ℚ
  expected_amount : Option ℚ
  validation_result : String
  validation_status : String
  deriving DecidableEq, Repr

/-- Projection of a merged row onto the report columns, with the computed
result and status. -/
def mk_report_row (m : MergedRow) : ReportRow :=
  { file_name := m.inv.file_name
    invoice_number_inv := m.inv.invoice_number_inv
    order_id := m.inv.order_id
    customer_name := m.inv.customer_name
    due_date := m.inv.due_date
    ship_to := m.inv.ship_to
    discount := m.inv.discount
    shipping_cost := m.inv.shipping_cost
    total := m.inv.total
    quantity_inv := m.inv.quantity
    quantity_po := m.quantity_po
    rate_inv := m.inv.rate
    rate_po := m.rate_po
    amount := m.inv.amount
    expected_amount := m.expected_amount
    validation_result := (classify_row m).1
    validation_status := (classify_row m).2 }

/-- Embedding of `validate_invoices(invoices_df, po_df)`. The function mutates both
argument DataFrames in place before merging, so the embedding passes the
state explicitly: it returns the mutated invoices, the mutated POs, and
either the validation report or the `MergeError` that
`validate="one_to_one"` raises when the merge keys are not unique on
either side. -/
def validate_invoices (invoices_df : List InvoiceRow) (po_df : List PoRow) :
    List InvoiceRowC × List PoRowC × Except String (List ReportRow) :=
  let invoices_mut := invoices_df.map coerce_invoice_row
  let po_mut := po_df.map coerce_po_row
  if (invoices_mut.map inv_merge_key).Nodup ∧ (po_mut.map po_merge_key).Nodup then
    (invoices_mut, po_mut, .ok ((merge_left invoices_mut po_mut).map mk_report_row))
  else
    (invoices_mut, po_mut, .error "MergeError: Merge keys are not unique in either left or right dataset")

/-- The payload of the POST request in `trigger_payment` (also the dict
handed to `generate_payment_justification`). -/
structure PayRequest where
  order_id : String
  customer_name : String
  amount : ℚ
  due_date : Date
  deriving DecidableEq, Repr

/-- The payment processor's JSON response, with the `.get(key, "")`
defaults already applied. -/
structure PayResponse where
  transaction_id : String
  status : String
  timestamp : String
  message : String
  deriving DecidableEq, Repr

/-- The external payment processor (`trigger_payment`): a non-2xx response
or transport failure raises, i.e. returns `Except.error`. -/
abbrev PayFn := PayRequest → Except String PayResponse

/-- The external generative justification call
(`generate_payment_justification`). -/
abbrev JustFn := PayRequest → String

/-- One row of the payment log, as built by `create_payment_log_entry`. -/
structure LogEntry where
  order_id : String
  customer_name : String
  due_date : Date
  amount : ℚ
  transaction_id : String
  status : String
  timestamp : String
  message : String
  justification : String
  payment_mode : String
  deriving DecidableEq, Repr

/-- The `transaction_type == "previous"` branch of
`create_payment_log_entry`: a fixed backfill entry, no external call.
`now_iso` is `pd.Timestamp.now().isoformat()`. -/
def previous_entry (now_iso : String) (row : ReportRow) : LogEntry :=
  { order_id := row.order_id
    customer_name := row.customer_name
    due_date := row.due_date
    amount := row.total
    transaction_id := "PREVIOUSLY_PAID"
    status := "SUCCESS"
    timestamp := now_iso
    message := "Auto-paid earlier"
    justification := "Previously paid for past due invoice"
    payment_mode := "PreviouslyPaid" }

/-- The `else` (auto) branch of `create_payment_log_entry`, given the
payment processor's response and the generated justification. -/
def auto_entry (resp : PayResponse) (j : String) (row : ReportRow) : LogEntry :=
  { order_id := row.order_id
    customer_name := row.customer_name
    due_date := row.due_date
    amount := row.total
    transaction_id := resp.transaction_id
    status := resp.status
    timestamp := resp.timestamp
    message := resp.message
    justification := j
    payment_mode := "Auto" }

/-- The request dict built from a report row (same payload for the payment
call and the justification call). -/
def pay_request_of_row (row : ReportRow) : PayRequest :=
  { order_id := row.order_id
    customer_name := row.customer_name
    amount := row.total
    due_date := row.due_date }

/-- Embedding of `create_payment_log_entry(row, transaction_type)`: the "previous"
branch is pure; the auto branch calls the payment processor (which may
raise) and the justification generator. -/
def create_payment_log_entry (payFn : PayFn) (justFn : JustFn) (now_iso : String)
    (row : ReportRow) (transaction_type : String) : Except String LogEntry :=
  if transaction_type = "previous" then
    .ok (previous_entry now_iso row)
  else do
    let payment_response ← payFn (pay_request_of_row row)
    .ok (auto_entry payment_response (justFn (pay_request_of_row row)) row)

/-- The row filter of `process_past_due_invoices`: due date strictly
before today and status VALID. -/
def past_due_filter (today : Date) (report : List ReportRow) : List ReportRow :=
  report.filter (fun r => decide (r.due_date < today) && r.validation_status == "VALID")

/-- The row filter of `process_todays_invoices`: due date equal to today
(the VALID check happens inside the loop). -/
def today_filter (today : Date) (report : List ReportRow) : List ReportRow :=
  report.filter (fun r => r.due_date == today)

/-- The `already_paid` lookup: the existing log filtered on exact equality
of `order_id` and `customer_name` is non-empty. -/
def already_paid (existing_log : List LogEntry) (r : ReportRow) : Bool :=
  !(existing_log.filter
      (fun e => e.order_id == r.order_id && e.customer_name == r.customer_name)).isEmpty

/-- The loop of `process_past_due_invoices`, with the accumulated entry
list made explicit. An exception in an iteration propagates. -/
def process_past_due_aux (payFn : PayFn) (justFn : JustFn) (now_iso : String)
    (existing_log : List LogEntry) (acc : List LogEntry) :
    List ReportRow → Except String (List LogEntry)
  | [] => .ok acc
  | r :: rest =>
    if already_paid existing_log r then
      process_past_due_aux payFn justFn now_iso existing_log acc rest
    else do
      let e ← create_payment_log_entry payFn justFn now_iso r "previous"
      process_past_due_aux payFn justFn now_iso existing_log (acc ++ [e]) rest

/-- Embedding of `process_past_due_invoices(validation_report_df, existing_log_df)`. -/
def process_past_due_invoices (payFn : PayFn) (justFn : JustFn) (now_iso : String)
    (today : Date) (report : List ReportRow) (existing_log : List LogEntry) :
    Except String (List LogEntry) :=
  process_past_due_aux payFn justFn now_iso existing_log [] (past_due_filter today report)

/-- The loop of `process_todays_invoices`, with the accumulated entry list
made explicit. A raised payment exception propagates and aborts the loop. -/
def process_todays_aux (payFn : PayFn) (justFn : JustFn) (now_iso : String)
    (existing_log : List LogEntry) (acc : List LogEntry) :
    List ReportRow → Except String (List LogEntry)
  | [] => .ok acc
  | r :: rest =>
    if r.validation_status = "VALID" then
      if already_paid existing_log r then
        process_todays_aux payFn justFn now_iso existing_log acc rest
      else do
        let e ← create_payment_log_entry payFn justFn now_iso r "auto"
        process_todays_aux payFn justFn now_iso existing_log (acc ++ [e]) rest
    else
      process_todays_aux payFn justFn now_iso existing_log acc rest

/-- Embedding of `process_todays_invoices(validation_report_df, existing_log_df)`. -/
def process_todays_invoices (payFn : PayFn) (justFn : JustFn) (now_iso : String)
    (today : Date) (report : List ReportRow) (existing_log : List LogEntry) :
    Except String (List LogEntry) :=
  process_todays_aux payFn justFn now_iso existing_log [] (today_filter today report)

/-- The combine-and-save step of `process_payments_and_past_due`: the `if`
ladder over emptiness collapsing to concatenation. -/
def accumulate_log (existing_log new_entries : List LogEntry) : List LogEntry :=
  if new_entries.isEmpty then existing_log
  else if existing_log.isEmpty then new_entries
  else existing_log ++ new_entries

/-- Embedding of `process_payments_and_past_due(validation_report_df)`: run the two
tracker passes against the same existing log, concatenate, persist. A
raised payment exception propagates before anything is persisted. -/
def process_payments_and_past_due (payFn : PayFn) (justFn : JustFn) (now_iso : String)
    (today : Date) (report : List ReportRow) (existing_log : List LogEntry) :
    Except String (List LogEntry) := do
  let past_due_entries ← process_past_due_invoices payFn justFn now_iso today report existing_log
  let todays_entries ← process_todays_invoices payFn justFn now_iso today report existing_log
  .ok (accumulate_log existing_log (past_due_entries ++ todays_entries))

/-- One element of a parsed invoice's `item_details` list. -/
structure ItemDetail where
  item_name : String
  quantity : ℚ
  rate : ℚ
  amount : ℚ
  deriving DecidableEq, Repr

/-- The dict returned by `parse_invoice_with_genai` for one PDF. -/
structure ParsedInvoice where
  invoice_number : ℚ
  order_id : String
  customer_name : String
  due_date : Date
  ship_to : String
  discount : ℚ
  shipping_cost : ℚ
  total : ℚ
  item_details : List ItemDetail
  deriving DecidableEq, Repr

/-- The flattening step of `analyze_invoices`: one invoice row per element
of `item_details`, carrying the file name. -/
def flatten_invoice (pdf_file : String) (p : ParsedInvoice) : List InvoiceRow :=
  p.item_details.map (fun item =>
    { file_name := pdf_file
      invoice_number := p.invoice_number
      order_id := p.order_id
      customer_name := p.customer_name
      due_date := p.due_date
      ship_to := p.ship_to
      discount := p.discount
      shipping_cost := p.shipping_cost
      total := p.total
      item_name := item.item_name
      quantity := item.quantity
      rate := item.rate
      amount := item.amount })

/-- Python `pdf_file.endswith(".pdf")`, as a suffix check on the
character data. -/
def ends_with (s suff : String) : Bool :=
  suff.data.isSuffixOf s.data

/-- Embedding of `analyze_invoices(pdf_folder)` over the folder listing. The extraction
collaborators are parameters: `extract_raw_text` and the parser, which
returns `none` when the extraction client has exhausted its retries. On
`none` the Python loop executes `break`: the rows gathered so far are
kept and every remaining file is skipped. -/
def analyze_invoices (extract_raw_text : String → String)
    (parse_with_genai : String → Option ParsedInvoice) :
    List String → List InvoiceRow
  | [] => []
  | pdf_file :: rest =>
    if ends_with pdf_file ".pdf" then
      match parse_with_genai (extract_raw_text pdf_file) with
      | none => []
      | some parsed =>
        flatten_invoice pdf_file parsed ++
          analyze_invoices extract_raw_text parse_with_genai rest
    else
      analyze_invoices extract_raw_text parse_with_genai rest

/-- The deduplication identity of a report row: (`order_id`, `customer_name`). -/
def report_identity (r : ReportRow) : String × String :=
  (r.order_id, r.customer_name)

/-- The deduplication identity of a payment-log entry. -/
def entry_identity (e : LogEntry) : String × String :=
  (e.order_id, e.customer_name)

/-- The rows `process_past_due_invoices` actually emits entries for:
past-due VALID rows with no identity match in the existing log. -/
def past_due_new_rows (today : Date) (report : List ReportRow)
    (existing_log : List LogEntry) : List ReportRow :=
  (past_due_filter today report).filter (fun r => !already_paid existing_log r)

/-- The entries `process_past_due_invoices` emits, as a pure value: one
`previous_entry` per qualifying row, in report order. -/
def past_due_pure (now_iso : String) (today : Date) (report : List ReportRow)
    (existing_log : List LogEntry) : List LogEntry :=
  (past_due_new_rows today report existing_log).map (previous_entry now_iso)

lemma mem_filter_identity (L : List LogEntry) (r : ReportRow) (e : LogEntry) :
    e ∈ L.filter (fun e => e.order_id == r.order_id && e.customer_name == r.customer_name) ↔
      e ∈ L ∧ entry_identity e = report_identity r := by
  simp [List.mem_filter, entry_identity, report_identity]

lemma already_paid_iff (L : List LogEntry) (r : ReportRow) :
    already_paid L r = true ↔ ∃ e ∈ L, entry_identity e = report_identity r := by
  constructor
  · intro h
    have hne : L.filter
        (fun e => e.order_id == r.order_id && e.customer_name == r.customer_name) ≠ [] := by
      intro hnil
      rw [already_paid, hnil] at h
      simp at h
    rcases List.exists_mem_of_ne_nil _ hne with ⟨e, he⟩
    rcases (mem_filter_identity L r e).mp he with ⟨h1, h2⟩
    exact ⟨e, h1, h2⟩
  · rintro ⟨e, heL, hid⟩
    have hmem := (mem_filter_identity L r e).mpr ⟨heL, hid⟩
    rw [already_paid]
    cases hE : (L.filter
        (fun e => e.order_id == r.order_id && e.customer_name == r.customer_name)).isEmpty
    · rfl
    · rw [List.isEmpty_iff] at hE
      rw [hE] at hmem
      exact absurd hmem (List.not_mem_nil e)

lemma already_paid_mono (L M : List LogEntry) (r : ReportRow)
    (h : already_paid L r = true) : already_paid (L ++ M) r = true := by
  rcases (already_paid_iff L r).mp h with ⟨e, heL, hid⟩
  exact (already_paid_iff _ r).mpr ⟨e, List.mem_append_left _ heL, hid⟩

lemma already_paid_of_mem (L : List LogEntry) (e : LogEntry) (r : ReportRow)
    (heL : e ∈ L) (hid : entry_identity e = report_identity r) :
    already_paid L r = true :=
  (already_paid_iff L r).mpr ⟨e, heL, hid⟩

lemma already_paid_eq_false_iff (L : List LogEntry) (r : ReportRow) :
    already_paid L r = false ↔ ∀ e ∈ L, entry_identity e ≠ report_identity r := by
  rw [← Bool.not_eq_true, not_iff_comm.symm]
  simp [already_paid_iff]

lemma create_previous_eq (payFn : PayFn) (justFn : JustFn) (now_iso : String)
    (row : ReportRow) :
    create_payment_log_entry payFn justFn now_iso row "previous" =
      .ok (previous_entry now_iso row) := by
  simp [create_payment_log_entry]

lemma process_past_due_aux_eq (payFn : PayFn) (justFn : JustFn) (now_iso : String)
    (L : List LogEntry) (acc : List LogEntry) (l : List ReportRow) :
    process_past_due_aux payFn justFn now_iso L acc l =
      .ok (acc ++ (l.filter (fun r => !already_paid L r)).map (previous_entry now_iso)) := by
  induction l generalizing acc with
  | nil => simp [process_past_due_aux]
  | cons r rest ih =>
    by_cases h : already_paid L r = true
    · simp [process_past_due_aux, h, ih, List.filter_cons]
    · rw [Bool.not_eq_true] at h
      simp [process_past_due_aux, h, create_previous_eq, ih, List.filter_cons,
        Bind.bind, Except.bind]

/-- The past-due pass never raises and is a pure function of the report and
the existing log: in particular it is independent of the payment processor
and the justification generator (no external call is made). -/
lemma process_past_due_invoices_eq (payFn : PayFn) (justFn : JustFn) (now_iso : String)
    (today : Date) (report : List ReportRow) (existing_log : List LogEntry) :
    process_past_due_invoices payFn justFn now_iso today report existing_log =
      .ok (past_due_pure now_iso today report existing_log) := by
  simp [process_past_due_invoices, process_past_due_aux_eq, past_due_pure, past_due_new_rows]

lemma process_todays_aux_skip_all (payFn : PayFn) (justFn : JustFn) (now_iso : String)
    (L : List LogEntry) (acc : List LogEntry) (l : List ReportRow)
    (h : ∀ r ∈ l, r.validation_status = "VALID" → already_paid L r = true) :
    process_todays_aux payFn justFn now_iso L acc l = .ok acc := by
  induction l with
  | nil => simp [process_todays_aux]
  | cons r rest ih =>
    by_cases hv : r.validation_status = "VALID"
    · have hp := h r (List.mem_cons_self r rest) hv
      simp only [process_todays_aux, hv, if_pos rfl, hp, if_true]
      exact ih (fun x hx hvx => h x (List.mem_cons_of_mem r hx) hvx)
    · simp only [process_todays_aux, if_neg hv]
      exact ih (fun x hx hvx => h x (List.mem_cons_of_mem r hx) hvx)

lemma process_todays_aux_extends (payFn : PayFn) (justFn : JustFn) (now_iso : String)
    (L : List LogEntry) (acc : List LogEntry) (l : List ReportRow) (t : List LogEntry)
    (h : process_todays_aux payFn justFn now_iso L acc l = .ok t) :
    ∃ s, t = acc ++ s := by
  induction l generalizing acc with
  | nil =>
    simp only [process_todays_aux, Except.ok.injEq] at h
    exact ⟨[], by simp [h]⟩
  | cons r rest ih =>
    by_cases hv : r.validation_status = "VALID"
    · by_cases hp : already_paid L r = true
      · rw [process_todays_aux, if_pos hv, if_pos hp] at h
        exact ih acc h
      · rw [Bool.not_eq_true] at hp
        rw [process_todays_aux, if_pos hv, hp, if_neg (by simp)] at h
        simp only [create_payment_log_entry, if_neg (by decide : ¬("auto" = "previous"))] at h
        cases hpay : payFn (pay_request_of_row r) with
        | error msg => rw [hpay] at h; simp [Bind.bind, Except.bind] at h
        | ok resp =>
          rw [hpay] at h
          simp only [Bind.bind, Except.bind] at h
          rcases ih _ h with ⟨s, hs⟩
          exact ⟨auto_entry resp (justFn (pay_request_of_row r)) r :: s, by simp [hs]⟩
    · rw [process_todays_aux, if_neg hv] at h
      exact ih acc h

lemma process_todays_aux_covers (payFn : PayFn) (justFn : JustFn) (now_iso : String)
    (L : List LogEntry) (acc : List LogEntry) (l : List ReportRow) (t : List LogEntry)
    (h : process_todays_aux payFn justFn now_iso L acc l = .ok t) :
    ∀ r ∈ l, r.validation_status = "VALID" → already_paid L r = false →
      ∃ e ∈ t, entry_identity e = report_identity r := by
  induction l generalizing acc with
  | nil => intro r hr; exact absurd hr (List.not_mem_nil r)
  | cons r0 rest ih =>
    intro r hr hv hp
    by_cases hv0 : r0.validation_status = "VALID"
    · by_cases hp0 : already_paid L r0 = true
      · rw [process_todays_aux, if_pos hv0, if_pos hp0] at h
        rcases List.mem_cons.mp hr with heq | hmem
        · subst heq; rw [hp0] at hp; cases hp
        · exact ih acc h r hmem hv hp
      · rw [Bool.not_eq_true] at hp0
        rw [process_todays_aux, if_pos hv0, hp0, if_neg (by simp)] at h
        simp only [create_payment_log_entry, if_neg (by decide : ¬("auto" = "previous"))] at h
        cases hpay : payFn (pay_request_of_row r0) with
        | error msg => rw [hpay] at h; simp [Bind.bind, Except.bind] at h
        | ok resp =>
          rw [hpay] at h
          simp only [Bind.bind, Except.bind] at h
          rcases List.mem_cons.mp hr with heq | hmem
          · subst heq
            rcases process_todays_aux_extends _ _ _ _ _ _ _ h with ⟨s, hs⟩
            refine ⟨auto_entry resp (justFn (pay_request_of_row r)) r, ?_, rfl⟩
            rw [hs]
            exact List.mem_append_left _ (by simp)
          · exact ih _ h r hmem hv hp
    · rw [process_todays_aux, if_neg hv0] at h
      rcases List.mem_cons.mp hr with heq | hmem
      · subst heq; exact absurd hv hv0
      · exact ih acc h r hmem hv hp

lemma entry_identity_previous (now_iso : String) (r : ReportRow) :
    entry_identity (previous_entry now_iso r) = report_identity r := rfl

lemma entry_identity_auto (resp : PayResponse) (j : String) (r : ReportRow) :
    entry_identity (auto_entry resp j r) = report_identity r := rfl

lemma process_todays_aux_countP (k : String × String) (payFn : PayFn) (justFn : JustFn)
    (now_iso : String) (L acc : List LogEntry) (l : List ReportRow) (t : List LogEntry)
    (h : process_todays_aux payFn justFn now_iso L acc l = .ok t) :
    t.countP (fun e => decide (entry_identity e = k)) =
      acc.countP (fun e => decide (entry_identity e = k)) +
      l.countP (fun r => decide (r.validation_status = "VALID") &&
        !already_paid L r && decide (report_identity r = k)) := by
  induction l generalizing acc with
  | nil =>
    simp only [process_todays_aux, Except.ok.injEq] at h
    subst h
    simp
  | cons r rest ih =>
    by_cases hv : r.validation_status = "VALID"
    · by_cases hp : already_paid L r = true
      · rw [process_todays_aux, if_pos hv, if_pos hp] at h
        rw [ih acc h, List.countP_cons]
        simp [hv, hp]
      · rw [Bool.not_eq_true] at hp
        rw [process_todays_aux, if_pos hv, hp, if_neg (by simp)] at h
        simp only [create_payment_log_entry,
          if_neg (by decide : ¬("auto" = "previous"))] at h
        cases hpay : payFn (pay_request_of_row r) with
        | error msg => rw [hpay] at h; simp [Bind.bind, Except.bind] at h
        | ok resp =>
          rw [hpay] at h
          simp only [Bind.bind, Except.bind] at h
          rw [ih _ h, List.countP_append, List.countP_cons]
          have hid : entry_identity (auto_entry resp (justFn (pay_request_of_row r)) r) =
              report_identity r := rfl
          by_cases hk : report_identity r = k
          · simp [hv, hp, hk, hid]
            omega
          · simp [hv, hp, hk, hid]
    · rw [process_todays_aux, if_neg hv] at h
      rw [ih acc h, List.countP_cons]
      simp [hv]

lemma countP_add_le_of_disjoint {α : Type} (P1 P2 Q : α → Bool) (l : List α)
    (h : ∀ a ∈ l, (P1 a = true → Q a = true) ∧ (P2 a = true → Q a = true) ∧
      ¬(P1 a = true ∧ P2 a = true)) :
    l.countP P1 + l.countP P2 ≤ l.countP Q := by
  induction l with
  | nil => simp
  | cons a rest ih =>
    have ha := h a (List.mem_cons_self a rest)
    have hrest := ih (fun x hx => h x (List.mem_cons_of_mem a hx))
    rw [List.countP_cons, List.countP_cons, List.countP_cons]
    by_cases h1 : P1 a = true
    · have hQ := ha.1 h1
      have h2 : ¬(P2 a = true) := fun h2 => ha.2.2 ⟨h1, h2⟩
      simp [h1, h2, hQ]
      omega
    · by_cases h2 : P2 a = true
      · have hQ := ha.2.1 h2
        simp [h1, h2, hQ]
        omega
      · simp [h1, h2]
        omega

lemma countP_identity_le_one (report : List ReportRow)
    (h : (report.map report_identity).Nodup) (k : String × String) :
    report.countP (fun r => decide (report_identity r = k)) ≤ 1 := by
  induction report with
  | nil => simp
  | cons r rest ih =>
    rw [List.map_cons, List.nodup_cons] at h
    rw [List.countP_cons]
    by_cases hk : report_identity r = k
    · have hzero : rest.countP (fun r => decide (report_identity r = k)) = 0 := by
        rw [List.countP_eq_zero]
        intro x hx
        simp only [decide_eq_true_eq]
        intro hxk
        exact h.1 (hk ▸ hxk ▸ List.mem_map_of_mem report_identity hx)
      simp [hk, hzero]
    · have : (decide (report_identity r = k)) = false := by simp [hk]
      rw [this, if_neg (by simp)]
      simpa using ih h.2

lemma accumulate_log_eq (existing_log new_entries : List LogEntry) :
    accumulate_log existing_log new_entries = existing_log ++ new_entries := by
  unfold accumulate_log
  by_cases h1 : new_entries.isEmpty
  · rw [if_pos h1, List.isEmpty_iff.mp h1, List.append_nil]
  · rw [if_neg h1]
    by_cases h2 : existing_log.isEmpty
    · rw [if_pos h2, List.isEmpty_iff.mp h2, List.nil_append]
    · rw [if_neg h2]

lemma countP_past_due_pure (now_iso : String) (today : Date) (report : List ReportRow)
    (L : List LogEntry) (k : String × String) :
    (past_due_pure now_iso today report L).countP (fun e => decide (entry_identity e = k)) =
      report.countP (fun r => (decide (report_identity r = k) && !already_paid L r) &&
        (decide (r.due_date < today) && r.validation_status == "VALID")) := by
  rw [past_due_pure, List.countP_map, past_due_new_rows, past_due_filter,
    List.countP_filter, List.countP_filter]
  apply List.countP_congr
  intro r _
  rfl

lemma countP_todays (k : String × String) (payFn : PayFn) (justFn : JustFn)
    (now_iso : String) (today : Date) (report : List ReportRow)
    (L : List LogEntry) (t : List LogEntry)
    (h : process_todays_invoices payFn justFn now_iso today report L = .ok t) :
    t.countP (fun e => decide (entry_identity e = k)) =
      report.countP (fun r => (decide (r.validation_status = "VALID") &&
        !already_paid L r && decide (report_identity r = k)) && (r.due_date == today)) := by
  rw [process_todays_invoices] at h
  have := process_todays_aux_countP k payFn justFn now_iso L [] _ t h
  rw [this, today_filter, List.countP_filter]
  simp

/-- Sample invoice row builder for concrete witnesses. -/
def sample_invoice (num : ℚ) (oid cid : String) : InvoiceRow :=
  { file_name := "inv1.pdf"
    invoice_number := num
    order_id := oid
    customer_name := cid
    due_date := 0
    ship_to := "Basel, West"
    discount := 0
    shipping_cost := 5
    total := 100
    item_name := "Widget"
    quantity := 2
    rate := 50
    amount := 100 }

/-- Sample purchase-order row builder for concrete witnesses. -/
def sample_po (num : ℚ) (oid cid : String) : PoRow :=
  { invoice_number := num
    order_id := oid
    customer_name := cid
    quantity := some 2
    rate := some 50
    expected_amount := some 100 }

/-- Sample validation-report row builder for concrete witnesses. -/
def sample_row (oid cid : String) (d : Date) (vstatus : String) : ReportRow :=
  { file_name := "inv1.pdf"
    invoice_number_inv := 1
    order_id := oid
    customer_name := cid
    due_date := d
    ship_to := "Basel, West"
    discount := 0
    shipping_cost := 5
    total := 100
    quantity_inv := 2
    quantity_po := some 2
    rate_inv := 50
    rate_po := some 50
    amount := 100
    expected_amount := some 100
    validation_result := "Match"
    validation_status := vstatus }

/-- A payment processor that always succeeds. -/
def pay_ok : PayFn := fun _ =>
  Except.ok { transaction_id := "TXN-1", status := "SUCCESS",
              timestamp := "2026-10-12T00:00:00", message := "Payment successful" }

/-- A justification generator with a fixed narrative. -/
def just_const : JustFn := fun _ => "Approved by policy"

/-- A payment processor whose call fails exactly for order `O1`. -/
def pay_fail_o1 : PayFn := fun req =>
  if req.order_id = "O1" then Except.error "Payment initiation failed"
  else Except.ok { transaction_id := "TXN-2", status := "SUCCESS",
                   timestamp := "t", message := "ok" }

/-- C8: the Payment Log Accumulator is pure concatenation — the persisted
log is exactly the existing entries in their original order followed by
the new entries in emission order; nothing is dropped, rewritten or
deduplicated at this stage. -/
theorem c8_accumulator_pure_concatenation (existing_log new_entries : List LogEntry) :
    accumulate_log existing_log new_entries = existing_log ++ new_entries :=
  accumulate_log_eq existing_log new_entries

/-- C2: when `validate_invoices` succeeds, the report has exactly one row
per input invoice row (a left-outer join over the mutated inputs), and a
row without a PO match carries missing values in all PO-side fields. -/
theorem c2_join_completeness (invoices_df : List InvoiceRow) (po_df : List PoRow)
    (invoices_mut : List InvoiceRowC) (po_mut : List PoRowC) (report : List ReportRow)
    (h : validate_invoices invoices_df po_df = (invoices_mut, po_mut, Except.ok report)) :
    report.length = invoices_df.length ∧
    report = (merge_left invoices_mut po_mut).map mk_report_row ∧
    (∀ m ∈ merge_left invoices_mut po_mut, m.po = none →
      (mk_report_row m).quantity_po = none ∧ (mk_report_row m).rate_po = none ∧
        (mk_report_row m).expected_amount = none) := by
  rw [validate_invoices] at h
  by_cases hval : ((invoices_df.map coerce_invoice_row).map inv_merge_key).Nodup ∧
      ((po_df.map coerce_po_row).map po_merge_key).Nodup
  · rw [if_pos hval] at h
    simp only [Prod.mk.injEq, Except.ok.injEq] at h
    obtain ⟨hi, hp, hr⟩ := h
    subst hi; subst hp
    refine ⟨?_, hr.symm, ?_⟩
    · rw [← hr, List.length_map, merge_left, List.length_map, List.length_map]
    · intro m _ hpo
      simp [mk_report_row, MergedRow.quantity_po, MergedRow.rate_po,
        MergedRow.expected_amount, hpo]
  · rw [if_neg hval] at h
    simp at h

/-- Concrete invoice row used by the C2 witness. -/
def c2_inv : InvoiceRow := sample_invoice 7 "O1" "CustA"

/-- Witness for C2 at a concrete input: one invoice row against an empty
purchase-order table (so the single output row is unmatched). -/
theorem c2_join_completeness_witness :
    ((merge_left [coerce_invoice_row c2_inv] []).map mk_report_row).length =
      ([c2_inv] : List InvoiceRow).length ∧
    (merge_left [coerce_invoice_row c2_inv] []).map mk_report_row =
      (merge_left [coerce_invoice_row c2_inv] []).map mk_report_row ∧
    (∀ m ∈ merge_left [coerce_invoice_row c2_inv] [], m.po = none →
      (mk_report_row m).quantity_po = none ∧ (mk_report_row m).rate_po = none ∧
        (mk_report_row m).expected_amount = none) :=
  c2_join_completeness [c2_inv] [] _ _ _ rfl

/-- C3's description of the reason list, stated from the claim's words:
a missing PO-side quantity, rate or expected amount short-circuits to
exactly `["Missing PO"]`; otherwise Quantity Mismatch, Rate Mismatch and
exactly one of Overbilling / Amount Mismatch are appended in this fixed
order, each under its exact-equality (no tolerance) condition. -/
def spec_reasons (quantity_inv rate_inv amount : ℚ) :
    Option ℚ → Option ℚ → Option ℚ → List String
  | some qp, some rp, some ea =>
    (if quantity_inv ≠ qp then ["Quantity Mismatch"] else []) ++
    (if rate_inv ≠ rp then ["Rate Mismatch"] else []) ++
    (if ea < amount then ["Overbilling"]
      else if amount < ea then ["Amount Mismatch"] else [])
  | _, _, _ => ["Missing PO"]

/-- C3's description of the final classification: empty reasons give
(`"Match"`, VALID); otherwise the reasons joined with `", "` and INVALID. -/
def spec_classify (m : MergedRow) : String × String :=
  let reasons := spec_reasons m.inv.quantity m.inv.rate m.inv.amount
    m.quantity_po m.rate_po m.expected_amount
  if reasons = [] then ("Match", "VALID")
  else (String.intercalate ", " reasons, "INVALID")

lemma get_reasons_eq (m : MergedRow) (qp rp ea : ℚ)
    (hq : m.quantity_po = some qp) (hr : m.rate_po = some rp)
    (he : m.expected_amount = some ea) :
    _get_validation_reasons m =
      (if m.inv.quantity ≠ qp then ["Quantity Mismatch"] else []) ++
      (if m.inv.rate ≠ rp then ["Rate Mismatch"] else []) ++
      (if ea < m.inv.amount then ["Overbilling"]
        else if m.inv.amount < ea then ["Amount Mismatch"] else []) := by
  simp only [_get_validation_reasons, hq, hr, he, py_ne, py_gt, py_lt,
    decide_eq_true_eq, List.nil_append]
  by_cases h1 : m.inv.quantity ≠ qp <;> by_cases h2 : m.inv.rate ≠ rp <;>
    by_cases h3 : ea < m.inv.amount <;> by_cases h4 : m.inv.amount < ea <;>
      simp [h1, h2, h3, h4]

lemma reasons_branch_eq (m : MergedRow) :
    (if _check_missing_po m then ["Missing PO"] else _get_validation_reasons m) =
      spec_reasons m.inv.quantity m.inv.rate m.inv.amount
        m.quantity_po m.rate_po m.expected_amount := by
  rcases hq : m.quantity_po with _ | qp <;> rcases hr : m.rate_po with _ | rp <;>
    rcases he : m.expected_amount with _ | ea
  case some.some.some =>
    have hmp : _check_missing_po m = false := by
      simp [_check_missing_po, hq, hr, he]
    rw [if_neg (by simp [hmp]), get_reasons_eq m qp rp ea hq hr he]
    rfl
  all_goals simp [_check_missing_po, hq, hr, he, spec_reasons]

/-- C3: the discrepancy classification of every joined row follows the
claimed fixed-order algorithm exactly (Missing PO short-circuit, then
Quantity Mismatch, Rate Mismatch, then exactly one of Overbilling or
Amount Mismatch; `"Match"`/VALID on empty reasons, otherwise the reasons
joined with `", "` and INVALID; exact equality throughout). -/
theorem c3_classification_fixed_order (m : MergedRow) :
    classify_row m = spec_classify m := by
  have hre := reasons_branch_eq m
  cases hl : spec_reasons m.inv.quantity m.inv.rate m.inv.amount
      m.quantity_po m.rate_po m.expected_amount with
  | nil => simp [classify_row, spec_classify, hre, hl]
  | cons a as => simp [classify_row, spec_classify, hre, hl]

/-- The (invoice_number, order_id, customer_name) triple of a raw invoice
row — the left merge key before coercion. -/
def invoice_key_triple (r : InvoiceRow) : ℚ × String × String :=
  (r.invoice_number, r.order_id, r.customer_name)

/-- The (invoice_number, order_id, customer_name) triple of a raw PO row. -/
def po_key_triple (p : PoRow) : ℚ × String × String :=
  (p.invoice_number, p.order_id, p.customer_name)

lemma validate_error_of_not_nodup (invoices_df : List InvoiceRow) (po_df : List PoRow)
    (hnot : ¬(((invoices_df.map coerce_invoice_row).map inv_merge_key).Nodup ∧
      ((po_df.map coerce_po_row).map po_merge_key).Nodup)) :
    ∃ msg, (validate_invoices invoices_df po_df).2.2 = Except.error msg := by
  refine ⟨"MergeError: Merge keys are not unique in either left or right dataset", ?_⟩
  simp only [validate_invoices]
  rw [if_neg hnot]

lemma not_nodup_map_of_dup {α β : Type} [DecidableEq β] (l : List α) (f : α → β)
    (i j : ℕ) (hi : i < l.length) (hj : j < l.length) (hij : i ≠ j)
    (hkey : f (l.get ⟨i, hi⟩) = f (l.get ⟨j, hj⟩)) :
    ¬(l.map f).Nodup := by
  intro hnodup
  rw [List.nodup_iff_injective_get] at hnodup
  have hi2 : i < (l.map f).length := by rw [List.length_map]; exact hi
  have hj2 : j < (l.map f).length := by rw [List.length_map]; exact hj
  have hget : (l.map f).get ⟨i, hi2⟩ = (l.map f).get ⟨j, hj2⟩ := by
    rw [List.get_map, List.get_map]
    exact hkey
  have := hnodup hget
  exact hij (congrArg Fin.val this)

/-- C9: the merge is validated one-to-one on both sides — duplicate join
keys among the purchase orders make `validate_invoices` raise, and so do
two invoice line items sharing (invoice_number, order_id, customer_name)
(as the line items of one invoice do by construction), instead of a
report being produced. -/
theorem c9_one_to_one_validated_both_sides (invoices_df : List InvoiceRow)
    (po_df : List PoRow) :
    (∀ i j, ∀ hi : i < invoices_df.length, ∀ hj : j < invoices_df.length, i ≠ j →
      invoice_key_triple (invoices_df.get ⟨i, hi⟩) =
        invoice_key_triple (invoices_df.get ⟨j, hj⟩) →
      ∃ msg, (validate_invoices invoices_df po_df).2.2 = Except.error msg) ∧
    (∀ i j, ∀ hi : i < po_df.length, ∀ hj : j < po_df.length, i ≠ j →
      po_key_triple (po_df.get ⟨i, hi⟩) = po_key_triple (po_df.get ⟨j, hj⟩) →
      ∃ msg, (validate_invoices invoices_df po_df).2.2 = Except.error msg) := by
  constructor
  · intro i j hi hj hij hkey
    apply validate_error_of_not_nodup
    intro hand
    apply not_nodup_map_of_dup (invoices_df.map coerce_invoice_row) inv_merge_key i j
      (by rw [List.length_map]; exact hi) (by rw [List.length_map]; exact hj) hij ?_ hand.1
    rw [List.get_map, List.get_map]
    simp only [invoice_key_triple, Prod.mk.injEq, List.get_eq_getElem] at hkey
    simp [inv_merge_key, coerce_invoice_row, hkey.1, hkey.2.1, hkey.2.2]
  · intro i j hi hj hij hkey
    apply validate_error_of_not_nodup
    intro hand
    apply not_nodup_map_of_dup (po_df.map coerce_po_row) po_merge_key i j
      (by rw [List.length_map]; exact hi) (by rw [List.length_map]; exact hj) hij ?_ hand.2
    rw [List.get_map, List.get_map]
    simp only [po_key_triple, Prod.mk.injEq, List.get_eq_getElem] at hkey
    simp [po_merge_key, coerce_po_row, hkey.1, hkey.2.1, hkey.2.2]

/-- Two line items of the same invoice: identical
(invoice_number, order_id, customer_name), different item fields. -/
def c9_item1 : InvoiceRow := sample_invoice 7 "O1" "CustA"

/-- Second line item of the same invoice as `c9_item1`. -/
def c9_item2 : InvoiceRow :=
  { sample_invoice 7 "O1" "CustA" with item_name := "Gadget", quantity := 3 }

/-- Witness for C9: an invoice with two line items makes
`validate_invoices` fail. -/
theorem c9_witness :
    ∃ msg, (validate_invoices [c9_item1, c9_item2] [sample_po 7 "O1" "CustA"]).2.2 =
      Except.error msg :=
  (c9_one_to_one_validated_both_sides [c9_item1, c9_item2] [sample_po 7 "O1" "CustA"]).1
    0 1 (by decide) (by decide) (by decide) rfl

/-- C10: `validate_invoices` mutates its arguments in place — the caller's
invoices end up with `invoice_number` coerced to int and renamed to
`invoice_number_inv`, the caller's POs with `invoice_number` coerced to
int, and (frame) no other column of either input is changed. -/
theorem c10_validate_mutates_arguments_in_place (invoices_df : List InvoiceRow)
    (po_df : List PoRow) :
    (validate_invoices invoices_df po_df).1 = invoices_df.map coerce_invoice_row ∧
    (validate_invoices invoices_df po_df).2.1 = po_df.map coerce_po_row ∧
    (∀ r : InvoiceRow,
      (coerce_invoice_row r).invoice_number_inv = astype_int r.invoice_number ∧
      (coerce_invoice_row r).file_name = r.file_name ∧
      (coerce_invoice_row r).order_id = r.order_id ∧
      (coerce_invoice_row r).customer_name = r.customer_name ∧
      (coerce_invoice_row r).due_date = r.due_date ∧
      (coerce_invoice_row r).ship_to = r.ship_to ∧
      (coerce_invoice_row r).discount = r.discount ∧
      (coerce_invoice_row r).shipping_cost = r.shipping_cost ∧
      (coerce_invoice_row r).total = r.total ∧
      (coerce_invoice_row r).item_name = r.item_name ∧
      (coerce_invoice_row r).quantity = r.quantity ∧
      (coerce_invoice_row r).rate = r.rate ∧
      (coerce_invoice_row r).amount = r.amount) ∧
    (∀ p : PoRow,
      (coerce_po_row p).invoice_number = astype_int p.invoice_number ∧
      (coerce_po_row p).order_id = p.order_id ∧
      (coerce_po_row p).customer_name = p.customer_name ∧
      (coerce_po_row p).quantity = p.quantity ∧
      (coerce_po_row p).rate = p.rate ∧
      (coerce_po_row p).expected_amount = p.expected_amount) := by
  refine ⟨?_, ?_, ?_, ?_⟩
  · simp only [validate_invoices]
    split <;> rfl
  · simp only [validate_invoices]
    split <;> rfl
  · intro r
    exact ⟨rfl, rfl, rfl, rfl, rfl, rfl, rfl, rfl, rfl, rfl, rfl, rfl, rfl⟩
  · intro p
    exact ⟨rfl, rfl, rfl, rfl, rfl, rfl⟩

/-- C4: a VALID report row strictly past due with no existing log entry of
the same identity gets exactly one backfill entry — fixed `PreviouslyPaid`
fields — and the past-due pass makes no call to the external payment
processor (its result is the same pure value for every processor and
justification generator, and it never raises). -/
theorem c4_past_due_backfill (now_iso : String)
    (today : Date) (report : List ReportRow) (existing_log : List LogEntry)
    (r : ReportRow) (hmem : r ∈ report) (hvalid : r.validation_status = "VALID")
    (hdue : r.due_date < today) (hnew : already_paid existing_log r = false) :
    (∀ pf : PayFn, ∀ jf : JustFn,
      process_past_due_invoices pf jf now_iso today report existing_log =
        Except.ok (past_due_pure now_iso today report existing_log)) ∧
    past_due_pure now_iso today report existing_log =
      (past_due_new_rows today report existing_log).map (previous_entry now_iso) ∧
    (past_due_pure now_iso today report existing_log).length =
      (past_due_new_rows today report existing_log).length ∧
    r ∈ past_due_new_rows today report existing_log ∧
    (previous_entry now_iso r).payment_mode = "PreviouslyPaid" ∧
    (previous_entry now_iso r).transaction_id = "PREVIOUSLY_PAID" ∧
    (previous_entry now_iso r).status = "SUCCESS" ∧
    (previous_entry now_iso r).message = "Auto-paid earlier" := by
  refine ⟨fun pf jf => process_past_due_invoices_eq pf jf now_iso today report existing_log,
    rfl, by rw [past_due_pure, List.length_map], ?_, rfl, rfl, rfl, rfl⟩
  rw [past_due_new_rows]
  refine List.mem_filter.mpr ⟨?_, by simp [hnew]⟩
  rw [past_due_filter]
  refine List.mem_filter.mpr ⟨hmem, ?_⟩
  simp [hdue, hvalid]

/-- Concrete past-due VALID row for the C4 witness. -/
def c4_row : ReportRow := sample_row "O9" "Grace" (-3) "VALID"

/-- Witness for C4 at a concrete input: a single past-due VALID row
against an empty log. -/
theorem c4_past_due_backfill_witness :
    (∀ pf : PayFn, ∀ jf : JustFn,
      process_past_due_invoices pf jf "T" 0 [c4_row] [] =
        Except.ok (past_due_pure "T" 0 [c4_row] [])) ∧
    past_due_pure "T" 0 [c4_row] [] =
      (past_due_new_rows 0 [c4_row] []).map (previous_entry "T") ∧
    (past_due_pure "T" 0 [c4_row] []).length =
      (past_due_new_rows 0 [c4_row] []).length ∧
    c4_row ∈ past_due_new_rows 0 [c4_row] [] ∧
    (previous_entry "T" c4_row).payment_mode = "PreviouslyPaid" ∧
    (previous_entry "T" c4_row).transaction_id = "PREVIOUSLY_PAID" ∧
    (previous_entry "T" c4_row).status = "SUCCESS" ∧
    (previous_entry "T" c4_row).message = "Auto-paid earlier" :=
  c4_past_due_backfill "T" 0 [c4_row] [] c4_row
    (by simp) rfl (by decide) rfl

/-- C1: the Payment State Tracker is idempotent — if one run of the two
passes emits entries `p` and `t` and those are appended to the log, a
second run of both passes on the same report against the augmented log
emits zero new entries. -/
theorem c1_tracker_idempotent (payFn : PayFn) (justFn : JustFn)
    (now_iso now_iso2 : String) (today : Date) (report : List ReportRow)
    (existing_log : List LogEntry) (p t : List LogEntry)
    (h1 : process_past_due_invoices payFn justFn now_iso today report existing_log =
      Except.ok p)
    (h2 : process_todays_invoices payFn justFn now_iso today report existing_log =
      Except.ok t) :
    process_past_due_invoices payFn justFn now_iso2 today report
      (existing_log ++ (p ++ t)) = Except.ok [] ∧
    process_todays_invoices payFn justFn now_iso2 today report
      (existing_log ++ (p ++ t)) = Except.ok [] := by
  have hp : p = past_due_pure now_iso today report existing_log := by
    have heq := process_past_due_invoices_eq payFn justFn now_iso today report existing_log
    rw [h1] at heq
    exact Except.ok.inj heq
  have factA : ∀ r ∈ past_due_filter today report,
      already_paid (existing_log ++ (p ++ t)) r = true := by
    intro r hr
    by_cases hal : already_paid existing_log r = true
    · exact already_paid_mono _ _ r hal
    · rw [Bool.not_eq_true] at hal
      have hrows : r ∈ past_due_new_rows today report existing_log := by
        rw [past_due_new_rows]
        exact List.mem_filter.mpr ⟨hr, by simp [hal]⟩
      have hentry : previous_entry now_iso r ∈ p := by
        rw [hp, past_due_pure]
        exact List.mem_map_of_mem (previous_entry now_iso) hrows
      exact already_paid_of_mem _ _ r
        (List.mem_append_right existing_log (List.mem_append_left t hentry)) rfl
  have factB : ∀ r ∈ today_filter today report, r.validation_status = "VALID" →
      already_paid (existing_log ++ (p ++ t)) r = true := by
    intro r hr hv
    by_cases hal : already_paid existing_log r = true
    · exact already_paid_mono _ _ r hal
    · rw [Bool.not_eq_true] at hal
      rcases process_todays_aux_covers payFn justFn now_iso existing_log [] _ t h2
          r hr hv hal with ⟨e, het, hid⟩
      exact already_paid_of_mem _ _ r
        (List.mem_append_right existing_log (List.mem_append_right p het)) hid
  constructor
  · rw [process_past_due_invoices_eq]
    have hnil : past_due_new_rows today report (existing_log ++ (p ++ t)) = [] := by
      rw [past_due_new_rows]
      rw [List.filter_eq_nil_iff]
      intro r hr
      simp [factA r hr]
    rw [past_due_pure, hnil, List.map_nil]
  · rw [process_todays_invoices]
    exact process_todays_aux_skip_all payFn justFn now_iso2 _ [] _ factB

/-- Concrete past-due VALID row for the C1 witness. -/
def c1_r_past : ReportRow := sample_row "O1" "Alice" (-1) "VALID"

/-- Concrete due-today VALID row for the C1 witness. -/
def c1_r_today : ReportRow := sample_row "O2" "Bob" 0 "VALID"

/-- Pass-1 backfill entries of the C1 witness. -/
def c1_pass1_past : List LogEntry := [previous_entry "T1" c1_r_past]

/-- Pass-1 auto entries of the C1 witness. -/
def c1_pass1_today : List LogEntry :=
  [auto_entry { transaction_id := "TXN-1", status := "SUCCESS",
                timestamp := "2026-10-12T00:00:00", message := "Payment successful" }
    "Approved by policy" c1_r_today]

/-- Witness for C1 at a concrete input: one past-due and one due-today
VALID row, empty starting log, always-successful processor. -/
theorem c1_tracker_idempotent_witness :
    process_past_due_invoices pay_ok just_const "T2" 0 [c1_r_past, c1_r_today]
      ([] ++ (c1_pass1_past ++ c1_pass1_today)) = Except.ok [] ∧
    process_todays_invoices pay_ok just_const "T2" 0 [c1_r_past, c1_r_today]
      ([] ++ (c1_pass1_past ++ c1_pass1_today)) = Except.ok [] :=
  c1_tracker_idempotent pay_ok just_const "T1" "T2" 0 [c1_r_past, c1_r_today] []
    c1_pass1_past c1_pass1_today rfl rfl

/-- The response `pay_fail_o1` returns for any order other than `O1`. -/
def pay_o2_resp : PayResponse :=
  { transaction_id := "TXN-2", status := "SUCCESS", timestamp := "t", message := "ok" }

/-- Due-today VALID row whose payment call fails (order `O1`). -/
def c6_r1 : ReportRow := sample_row "O1" "Carol" 0 "VALID"

/-- Due-today VALID row whose payment call would succeed (order `O2`). -/
def c6_r2 : ReportRow := sample_row "O2" "Dave" 0 "VALID"

/-- C6 counterexample: with two due-today VALID rows and a processor that
fails only for the first row's order, the whole pass raises — the second
row's entry (which the processor alone would have produced, third
conjunct) is not emitted, and `process_payments_and_past_due` persists
nothing. This refutes the claim that a payment failure is fatal only for
that row while the rest of the pass continues. -/
theorem c6_counterexample :
    process_todays_invoices pay_fail_o1 just_const "T" 0 [c6_r1, c6_r2] [] =
      Except.error "Payment initiation failed" ∧
    process_payments_and_past_due pay_fail_o1 just_const "T" 0 [c6_r1, c6_r2] [] =
      Except.error "Payment initiation failed" ∧
    process_todays_invoices pay_fail_o1 just_const "T" 0 [c6_r2] [] =
      Except.ok [auto_entry pay_o2_resp "Approved by policy" c6_r2] :=
  ⟨rfl, rfl, rfl⟩

/-- C6 amended: a payment-processor failure during the due-today loop is
fatal for the whole pass — `process_payments_and_past_due` propagates the
error, so no entry of the pass (past-due backfills included) is persisted
and every unlogged row, the failing one included, is retried on the next
pass. -/
theorem c6_amended_failure_aborts_pass (payFn : PayFn) (justFn : JustFn)
    (now_iso : String) (today : Date) (report : List ReportRow)
    (existing_log : List LogEntry) (msg : String)
    (h : process_todays_invoices payFn justFn now_iso today report existing_log =
      Except.error msg) :
    process_payments_and_past_due payFn justFn now_iso today report existing_log =
      Except.error msg := by
  rw [process_payments_and_past_due]
  simp only [process_past_due_invoices_eq, h, Bind.bind, Except.bind]

/-- Witness for the amended C6 at the concrete counterexample input. -/
theorem c6_amended_witness :
    process_payments_and_past_due pay_fail_o1 just_const "T" 0 [c6_r1, c6_r2] [] =
      Except.error "Payment initiation failed" :=
  c6_amended_failure_aborts_pass pay_fail_o1 just_const "T" 0 [c6_r1, c6_r2] [] _ rfl

/-- One line item of the parsed invoice used by the C7 theorems. -/
def c7_item : ItemDetail :=
  { item_name := "Widget", quantity := 1, rate := 10, amount := 10 }

/-- The invoice that `c7_parse` successfully parses for `b.pdf`. -/
def c7_parsed : ParsedInvoice :=
  { invoice_number := 3, order_id := "O3", customer_name := "Erin", due_date := 0,
    ship_to := "Madrid, East", discount := 0, shipping_cost := 1, total := 10,
    item_details := [c7_item] }

/-- A concrete PDF text extractor: tags the file name. -/
def c7_extract : String → String := fun f => String.append "raw:" f

/-- A concrete parser: succeeds only on the text of `b.pdf` (retry
exhaustion, i.e. `None`, for every other file). -/
def c7_parse : String → Option ParsedInvoice := fun s =>
  if s = "raw:b.pdf" then some c7_parsed else none

/-- C7 counterexample: extraction fails for `a.pdf`, yet `b.pdf` — which
parses fine and would yield one row (second and third conjuncts) —
produces nothing, because the batch loop executes `break` instead of
skipping only the affected invoice. This refutes the claim that every
other PDF is still extracted. -/
theorem c7_counterexample :
    analyze_invoices c7_extract c7_parse ["a.pdf", "b.pdf"] = [] ∧
    c7_parse (c7_extract "b.pdf") = some c7_parsed ∧
    (flatten_invoice "b.pdf" c7_parsed).length = 1 :=
  ⟨rfl, rfl, rfl⟩

/-- C7 amended: when the extraction client exhausts its retries for one
PDF, the batch does not crash — it returns normally with exactly the rows
of the PDFs processed before the failing one, while the failing PDF and
every remaining file in the folder listing are skipped (`break`). -/
theorem c7_amended_break_semantics (extract : String → String)
    (parse : String → Option ParsedInvoice) (pre rest : List String) (f : String)
    (hf : ends_with f ".pdf" = true) (hfail : parse (extract f) = none) :
    analyze_invoices extract parse (pre ++ f :: rest) =
      analyze_invoices extract parse pre := by
  induction pre with
  | nil => simp [analyze_invoices, hf, hfail]
  | cons g gs ih =>
    by_cases hg : ends_with g ".pdf" = true
    · cases hpg : parse (extract g) with
      | none => simp [analyze_invoices, hg, hpg]
      | some parsed => simp [analyze_invoices, hg, hpg, ih]
    · rw [Bool.not_eq_true] at hg
      simp [analyze_invoices, hg, ih]

/-- Witness for the amended C7: `b.pdf` is processed, then `a.pdf` fails,
so `c.pdf` is skipped and the output equals that of `["b.pdf"]` alone. -/
theorem c7_amended_witness :
    analyze_invoices c7_extract c7_parse (["b.pdf"] ++ "a.pdf" :: ["c.pdf"]) =
      analyze_invoices c7_extract c7_parse ["b.pdf"] :=
  c7_amended_break_semantics c7_extract c7_parse ["b.pdf"] ["c.pdf"] "a.pdf" rfl rfl

/-- First of two VALID past-due report rows sharing one identity. -/
def c5_r1 : ReportRow := sample_row "O1" "Frank" (-2) "VALID"

/-- Second row with the same (order_id, customer_name) identity but a
different invoice number — a distinct report row. -/
def c5_r2 : ReportRow :=
  { sample_row "O1" "Frank" (-2) "VALID" with invoice_number_inv := 2 }

/-- C5 counterexample: two distinct VALID past-due rows sharing the
identity ("O1", "Frank") against an empty log — one pass appends two
entries with that identity, because the already-logged check consults only
the pre-existing log, not the entries accumulated during the pass. This
refutes at-most-one-entry-per-identity as universally stated. -/
theorem c5_counterexample :
    process_payments_and_past_due pay_ok just_const "T" 0 [c5_r1, c5_r2] [] =
      Except.ok [previous_entry "T" c5_r1, previous_entry "T" c5_r2] ∧
    ([previous_entry "T" c5_r1, previous_entry "T" c5_r2].countP
      (fun e => decide (entry_identity e = ("O1", "Frank")))) = 2 ∧
    c5_r1 ≠ c5_r2 :=
  ⟨rfl, by decide, by decide⟩

/-- C5 amended: if the validation report carries at most one row per
(order_id, customer_name) identity (pairwise distinct identities) and the
existing log already has at most one entry per identity, then after one
full pass the persisted log still has at most one entry per identity — in
particular at most one entry per identity was added by the pass. -/
theorem c5_amended_at_most_one_per_identity (payFn : PayFn) (justFn : JustFn)
    (now_iso : String) (today : Date) (report : List ReportRow)
    (existing_log L : List LogEntry)
    (hrep : (report.map report_identity).Nodup)
    (hlog : ∀ k : String × String,
      existing_log.countP (fun e => decide (entry_identity e = k)) ≤ 1)
    (hrun : process_payments_and_past_due payFn justFn now_iso today report
      existing_log = Except.ok L) :
    ∀ k : String × String, L.countP (fun e => decide (entry_identity e = k)) ≤ 1 := by
  intro k
  rw [process_payments_and_past_due] at hrun
  simp only [process_past_due_invoices_eq, Bind.bind, Except.bind] at hrun
  cases ht : process_todays_invoices payFn justFn now_iso today report existing_log with
  | error msg => rw [ht] at hrun; simp at hrun
  | ok t =>
    rw [ht] at hrun
    simp only [Except.ok.injEq] at hrun
    rw [accumulate_log_eq] at hrun
    subst hrun
    rw [List.countP_append, List.countP_append,
      countP_past_due_pure now_iso today report existing_log k,
      countP_todays k payFn justFn now_iso today report existing_log t ht]
    by_cases hlogk :
        existing_log.countP (fun e => decide (entry_identity e = k)) = 0
    · have hQ := countP_identity_le_one report hrep k
      have hdisj := countP_add_le_of_disjoint
        (fun r => (decide (report_identity r = k) && !already_paid existing_log r) &&
          (decide (r.due_date < today) && r.validation_status == "VALID"))
        (fun r => (decide (r.validation_status = "VALID") &&
          !already_paid existing_log r && decide (report_identity r = k)) &&
          (r.due_date == today))
        (fun r => decide (report_identity r = k)) report ?_
      · omega
      · intro r _
        refine ⟨?_, ?_, ?_⟩
        · intro h1
          simp only [Bool.and_eq_true] at h1
          exact h1.1.1
        · intro h2
          simp only [Bool.and_eq_true] at h2
          exact h2.1.2
        · rintro ⟨h1, h2⟩
          simp only [Bool.and_eq_true, decide_eq_true_eq, beq_iff_eq] at h1 h2
          have hlt := h1.2.1
          have heq := h2.2
          rw [heq] at hlt
          exact lt_irrefl today hlt
    · have hpos : 0 < existing_log.countP (fun e => decide (entry_identity e = k)) :=
        Nat.pos_of_ne_zero hlogk
      rcases List.countP_pos_iff.mp hpos with ⟨e, heL, hek⟩
      rw [decide_eq_true_eq] at hek
      have h1zero : report.countP (fun r =>
          (decide (report_identity r = k) && !already_paid existing_log r) &&
          (decide (r.due_date < today) && r.validation_status == "VALID")) = 0 := by
        rw [List.countP_eq_zero]
        intro r _ hcontra
        simp only [Bool.and_eq_true, decide_eq_true_eq, Bool.not_eq_true',
          beq_iff_eq] at hcontra
        have hpay : already_paid existing_log r = true :=
          already_paid_of_mem existing_log e r heL (by rw [hek, hcontra.1.1])
        rw [hpay] at hcontra
        exact absurd hcontra.1.2 (by decide)
      have h2zero : report.countP (fun r =>
          (decide (r.validation_status = "VALID") &&
          !already_paid existing_log r && decide (report_identity r = k)) &&
          (r.due_date == today)) = 0 := by
        rw [List.countP_eq_zero]
        intro r _ hcontra
        simp only [Bool.and_eq_true, decide_eq_true_eq, Bool.not_eq_true',
          beq_iff_eq] at hcontra
        have hpay : already_paid existing_log r = true :=
          already_paid_of_mem existing_log e r heL (by rw [hek, hcontra.1.2])
        rw [hpay] at hcontra
        exact absurd hcontra.1.1.2 (by decide)
      have hl := hlog k
      omega

/-- Witness for the amended C5: report with two distinct identities, one
entry already logged for one of them. -/
theorem c5_amended_witness :
    ([previous_entry "T0" c4_row, previous_entry "T" c1_r_past] :
      List LogEntry).countP
        (fun e => decide (entry_identity e = ("O9", "Grace"))) ≤ 1 :=
  c5_amended_at_most_one_per_identity pay_ok just_const "T" 0
    [c1_r_past, c4_row] [previous_entry "T0" c4_row]
    [previous_entry "T0" c4_row, previous_entry "T" c1_r_past]
    (by decide) (fun k => by
      simp only [List.countP_cons, List.countP_nil]
      split <;> omega) rfl ("O9", "Grace")
